import Mathlib

/-!
Shallow embedding of the deterministic metrics engine of the
See-Your-Future-Health application, together with theorems checking the
natural-language specification against it.

Numbers are modelled as rationals. JavaScript rounding helpers are made
explicit: Math.round rounds half values toward positive infinity, and
Number(x.toFixed(1)) rounds to one decimal with the same tie rule.
Display-only fields of the records (labels, notes, source links) are
omitted from the embedding; every field that feeds a computation is kept.
-/

namespace SYFH

/-- Rounding as in JavaScript Math.round: half values round toward positive infinity. -/
def jsRound (x : ℚ) : ℤ := ⌊x + 1/2⌋

/-- Rounding to one decimal place, as in Number(x.toFixed(1)). -/
def toFixed1 (x : ℚ) : ℚ := (jsRound (10 * x) : ℚ) / 10

/-- Gender enumeration from types.ts. -/
inductive Gender
  | Male
  | Female
  | Other
deriving DecidableEq, Repr

/-- Activity level enumeration from types.ts. -/
inductive ActivityLevel
  | Sedentary
  | Light
  | Moderate
  | Active
deriving DecidableEq, Repr

/-- Diet quality enumeration from types.ts. -/
inductive DietQuality
  | Poor
  | Average
  | Good
deriving DecidableEq, Repr

/-- Fast food frequency enumeration from types.ts. -/
inductive FastFoodFrequency
  | Never
  | Rarely
  | Weekly
  | Frequent
deriving DecidableEq, Repr

/-- Unit tag carried by lipid and glucose measurements. -/
inductive MeasureUnit
  | mg_dL
  | mmol_L
deriving DecidableEq, Repr

/-- Blood pressure record, shape as used by calcBPScore. -/
structure BPRecord where
  systolic : ℚ
  diastolic : ℚ
  onMeds : Bool
  measuredWithinMonths : Option ℚ
deriving DecidableEq, Repr

/-- Lipids record, shape as used by calcLipidsScore. -/
structure LipidsRecord where
  totalChol : Option ℚ
  ldl : Option ℚ
  unit : MeasureUnit
  onMeds : Bool
  measuredWithinMonths : Option ℚ
deriving DecidableEq, Repr

/-- Glucose record, shape as used by calcGlucoseScore. -/
structure GlucoseRecord where
  a1c : Option ℚ
  fasting : Option ℚ
  unit : MeasureUnit
  onMeds : Bool
  measuredWithinMonths : Option ℚ
deriving DecidableEq, Repr

/-- User profile from types.ts; the optional clinical records follow the
shape the calculators in the service file dereference. -/
structure UserProfile where
  age : ℚ
  gender : Gender
  heightCm : ℚ
  weightKg : ℚ
  waistCm : ℚ
  hipCm : ℚ
  dailySteps : ℚ
  sittingHours : ℚ
  existingConditions : List String
  sleepHours : ℚ
  activityLevel : ActivityLevel
  smoker : Bool
  cigarettesPerDay : Option ℚ
  yearsSmoked : Option ℚ
  yearsSinceQuit : Option ℚ
  alcoholDrinksPerWeek : ℚ
  maxDrinksPerOccasion : Option ℚ
  dietQuality : DietQuality
  fastFoodFrequency : FastFoodFrequency
  bp : Option BPRecord
  lipids : Option LipidsRecord
  glucose : Option GlucoseRecord
deriving DecidableEq, Repr

/-- JavaScript truthiness of an optional numeric field: present and nonzero. -/
def truthy (o : Option ℚ) : Bool :=
  match o with
  | none => false
  | some x => decide (x ≠ 0)

/-- BMI from height in cm and weight in kg, rounded to one decimal (calculateBMI). -/
def calculateBMI (h w : ℚ) : ℚ :=
  toFixed1 (w / (h / 100 * (h / 100)))

/-- Waist to hip ratio rounded to two decimals (calculateWHR). -/
def calculateWHR (waist hip : ℚ) : ℚ :=
  (jsRound (100 * (waist / hip)) : ℚ) / 100

/-- Simplified FINDRISC diabetes risk score (calculateFindrisc). -/
def calculateFindrisc (p : UserProfile) (bmi : ℚ) : ℤ :=
  let agePts : ℤ :=
    if 45 ≤ p.age ∧ p.age ≤ 54 then 2
    else if 55 ≤ p.age ∧ p.age ≤ 64 then 3
    else if 64 < p.age then 4
    else 0
  let bmiPts : ℤ :=
    if 25 ≤ bmi ∧ bmi ≤ 30 then 1
    else if 30 < bmi then 3
    else 0
  let waistPts : ℤ :=
    if p.gender = Gender.Male then
      (if 94 ≤ p.waistCm ∧ p.waistCm ≤ 102 then 3
       else if 102 < p.waistCm then 4
       else 0)
    else
      (if 80 ≤ p.waistCm ∧ p.waistCm ≤ 88 then 3
       else if 88 < p.waistCm then 4
       else 0)
  let activityPts : ℤ :=
    if p.activityLevel = ActivityLevel.Sedentary ∨ p.activityLevel = ActivityLevel.Light
    then 2 else 0
  let dietPts : ℤ := if p.dietQuality = DietQuality.Poor then 1 else 0
  let condPts : ℤ := if "Hypertension" ∈ p.existingConditions then 2 else 0
  agePts + bmiPts + waistPts + activityPts + dietPts + condPts

/-- FINDRISC probability banding applied by generateHealthProjection. -/
def diabetesProb (findriscScore : ℤ) : ℤ :=
  if 7 ≤ findriscScore ∧ findriscScore ≤ 11 then 4
  else if 12 ≤ findriscScore ∧ findriscScore ≤ 14 then 17
  else if 15 ≤ findriscScore ∧ findriscScore ≤ 20 then 33
  else if 20 < findriscScore then 50
  else 1

/-- Simplified cardiovascular risk proxy (calculateCVDRiskProxy). -/
def calculateCVDRiskProxy (p : UserProfile) (bmi : ℚ) : ℚ :=
  let r1 : ℚ := 1 + (if 40 < p.age then (p.age - 40) * (1/5) else 0)
  let r2 : ℚ := if p.gender = Gender.Male then r1 * (13/10) else r1
  let r3 : ℚ := if p.smoker then r2 * 2 else r2
  let r4 : ℚ := if 30 < bmi then r3 * (3/2) else if 25 < bmi then r3 * (6/5) else r3
  let r5 : ℚ := if "Hypertension" ∈ p.existingConditions then r4 * (3/2) else r4
  let r6 : ℚ := if "Type 2 Diabetes" ∈ p.existingConditions then r5 * 2 else r5
  let r7 : ℚ := if "High Cholesterol" ∈ p.existingConditions then r6 * (13/10) else r6
  let r8 : ℚ := if p.activityLevel = ActivityLevel.Sedentary then r7 * (6/5) else r7
  min 99 (toFixed1 r8)

/-- Legacy bio-vitality health score from geminiService.ts (calculateHealthScore). -/
def calculateHealthScore (p : UserProfile) (bmi : ℚ) (smoker : Bool) : ℤ :=
  let s1 : ℚ := 100 - (p.age - 20) * (3/10)
  let s2 : ℚ := if 30 < bmi then s1 - 15 else if 25 < bmi then s1 - 5 else s1
  let s3 : ℚ := if smoker then s2 - 20 else s2
  let s4 : ℚ :=
    if p.activityLevel = ActivityLevel.Sedentary then s3 - 10
    else if p.activityLevel = ActivityLevel.Active then s3 + 5
    else s3
  let s5 : ℚ := s4 - 10 * (p.existingConditions.length : ℚ)
  let s6 : ℚ := if p.sleepHours < 6 then s5 - 5 else s5
  max 10 (min 100 (jsRound s6))

/-- Result record of calcActivityGuidelines. -/
structure ActivityGuidelines where
  dailySteps : ℚ
  mvpaMinutesProxyPerWeek : ℤ
  meetsGuidelineBySteps : Bool
  meetsGuidelineByProxyMinutes : Bool
  overallMeetsMinimumGuideline : Bool
  additionalBenefitsTierReached : Bool
deriving DecidableEq, Repr

/-- Activity guideline compliance from daily steps (calcActivityGuidelines). -/
def calcActivityGuidelines (steps : ℚ) : ActivityGuidelines :=
  let mvpaProxy : ℤ := jsRound (steps / 100 * 7)
  let meetsBySteps : Bool := decide (8000 ≤ steps)
  let meetsByProxy : Bool := decide (150 ≤ mvpaProxy)
  { dailySteps := steps
    mvpaMinutesProxyPerWeek := mvpaProxy
    meetsGuidelineBySteps := meetsBySteps
    meetsGuidelineByProxyMinutes := meetsByProxy
    overallMeetsMinimumGuideline := meetsBySteps || meetsByProxy
    additionalBenefitsTierReached := decide (300 ≤ mvpaProxy) || decide (11000 ≤ steps) }

/-- Result record of calcAlcoholRisk. -/
structure AlcoholRisk where
  heavyDrinkingFlag : Bool
  riskLevel : String
  bingeFlag : Bool
deriving DecidableEq, Repr

/-- Alcohol risk classifier (calcAlcoholRisk). -/
def calcAlcoholRisk (drinksPerWeek : ℚ) (sex : Gender) (maxDrinks : Option ℚ) : AlcoholRisk :=
  let heavyThreshold : ℚ := if sex = Gender.Male then 15 else 8
  let heavyDrinkingFlag : Bool := decide (heavyThreshold ≤ drinksPerWeek)
  let level0 : String :=
    if 0 < drinksPerWeek then (if heavyDrinkingFlag then "high" else "elevated") else "none"
  let bingeFlag : Bool :=
    match maxDrinks with
    | none => false
    | some m => decide ((if sex = Gender.Male then (5 : ℚ) else 4) ≤ m)
  let level1 : String := if bingeFlag ∧ level0 ≠ "high" then "high" else level0
  { heavyDrinkingFlag := heavyDrinkingFlag, riskLevel := level1, bingeFlag := bingeFlag }

/-- Result record of calcDietScore. -/
structure DietScore where
  score : ℚ
  level : String
  qVal : ℕ
  ffVal : ℕ
deriving DecidableEq, Repr

/-- Diet quality score (calcDietScore). -/
def calcDietScore (quality : DietQuality) (fastFood : FastFoodFrequency) : DietScore :=
  let qVal : ℕ :=
    match quality with
    | DietQuality.Poor => 1
    | DietQuality.Average => 3
    | DietQuality.Good => 5
  let ffVal : ℕ :=
    match fastFood with
    | FastFoodFrequency.Never => 1
    | FastFoodFrequency.Rarely => 2
    | FastFoodFrequency.Weekly => 3
    | FastFoodFrequency.Frequent => 5
  let base : ℚ := (qVal : ℚ) * 20
  let penalties : List ℚ := [0, 0, 5, 15, 25, 35]
  let penalty : ℚ := penalties.getD ffVal 0
  let score : ℚ := max 0 (min 100 (base - penalty))
  let level : String :=
    if 80 ≤ score then "low"
    else if 60 ≤ score then "moderate"
    else if 40 ≤ score then "high"
    else "very_high"
  { score := score, level := level, qVal := qVal, ffVal := ffVal }

/-- Provenance tag of a vital-sign component. -/
inductive Basis
  | measured
  | self_report
  | unknown
  | proxy
deriving DecidableEq, Repr

/-- Score plus provenance returned by the three vital-sign scorers. -/
structure VitalScore where
  score : ℚ
  basis : Basis
deriving DecidableEq, Repr

/-- Raw clinical band of a measured blood pressure (the score cascade inside
calcBPScore before the medication cap and recency penalty). -/
def bpRawBand (s d : ℚ) : ℚ :=
  if 140 ≤ s ∨ 90 ≤ d then 20
  else if (130 ≤ s ∧ s ≤ 139) ∨ (80 ≤ d ∧ d ≤ 89) then 50
  else if (120 ≤ s ∧ s ≤ 129) ∧ d < 80 then 80
  else 100

/-- Medication cap applied to a measured vital score: on medication and
score above 80 caps the score at 80. -/
def medsCap (onMeds : Bool) (score : ℚ) : ℚ :=
  if onMeds ∧ 80 < score then 80 else score

/-- Recency penalty applied to a measured vital score: measurements older
than 12 months lose 10 points, floored at 0. -/
def recencyPenalty (measuredWithinMonths : Option ℚ) (score : ℚ) : ℚ :=
  if 12 < measuredWithinMonths.getD 0 then max 0 (score - 10) else score

/-- Fallback branch shared by the blood pressure scorer: self-reported
hypertension gives 30, otherwise the optimistic default 80. -/
def bpFallback (p : UserProfile) : VitalScore :=
  if "Hypertension" ∈ p.existingConditions then
    { score := 30, basis := Basis.self_report }
  else
    { score := 80, basis := Basis.unknown }

/-- Blood pressure component scorer (calcBPScore). -/
def calcBPScore (p : UserProfile) : VitalScore :=
  match p.bp with
  | some bp =>
    if bp.systolic ≠ 0 ∧ bp.diastolic ≠ 0 then
      { score := recencyPenalty bp.measuredWithinMonths
          (medsCap bp.onMeds (bpRawBand bp.systolic bp.diastolic))
        basis := Basis.measured }
    else bpFallback p
  | none => bpFallback p

/-- Conversion applied to lipid values reported in mmol per litre. -/
def lipidToMgDl (unit : MeasureUnit) (x : ℚ) : ℚ :=
  match unit with
  | MeasureUnit.mmol_L => x * (3867 / 100)
  | MeasureUnit.mg_dL => x

/-- LDL banding inside calcLipidsScore. -/
def ldlBand (ldl : ℚ) : ℚ :=
  if 190 ≤ ldl then 10
  else if 160 ≤ ldl then 30
  else if 130 ≤ ldl then 50
  else if 100 ≤ ldl then 80
  else 100

/-- Total cholesterol banding inside calcLipidsScore. -/
def totalCholBand (tc : ℚ) : ℚ :=
  if 240 ≤ tc then 20
  else if 200 ≤ tc then 60
  else 100

/-- Raw clinical band of a measured lipid panel: prefer LDL, else total
cholesterol, converting units first. -/
def lipidsRawBand (r : LipidsRecord) : ℚ :=
  if truthy r.ldl then ldlBand (lipidToMgDl r.unit (r.ldl.getD 0))
  else if truthy r.totalChol then totalCholBand (lipidToMgDl r.unit (r.totalChol.getD 0))
  else 100

/-- Fallback branch shared by the lipids scorer. -/
def lipidsFallback (p : UserProfile) : VitalScore :=
  if "High Cholesterol" ∈ p.existingConditions then
    { score := 30, basis := Basis.self_report }
  else
    { score := 80, basis := Basis.unknown }

/-- Blood lipids component scorer (calcLipidsScore). -/
def calcLipidsScore (p : UserProfile) : VitalScore :=
  match p.lipids with
  | some r =>
    if truthy r.totalChol ∨ truthy r.ldl then
      { score := recencyPenalty r.measuredWithinMonths (medsCap r.onMeds (lipidsRawBand r))
        basis := Basis.measured }
    else lipidsFallback p
  | none => lipidsFallback p

/-- A1c banding inside calcGlucoseScore. -/
def a1cBand (a : ℚ) : ℚ :=
  if 65/10 ≤ a then 20
  else if 57/10 ≤ a then 60
  else 100

/-- Fasting glucose banding inside calcGlucoseScore. -/
def fastingBand (f : ℚ) : ℚ :=
  if 126 ≤ f then 20
  else if 100 ≤ f then 60
  else 100

/-- Conversion applied to fasting glucose reported in mmol per litre. -/
def glucoseToMgDl (unit : MeasureUnit) (x : ℚ) : ℚ :=
  match unit with
  | MeasureUnit.mmol_L => x * 18
  | MeasureUnit.mg_dL => x

/-- Raw clinical band of a measured glucose record: prefer A1c, else
fasting glucose with unit conversion. -/
def glucoseRawBand (r : GlucoseRecord) : ℚ :=
  if truthy r.a1c then a1cBand (r.a1c.getD 0)
  else if truthy r.fasting then fastingBand (glucoseToMgDl r.unit (r.fasting.getD 0))
  else 100

/-- Fallback branch shared by the glucose scorer. -/
def glucoseFallback (p : UserProfile) : VitalScore :=
  if "Type 2 Diabetes" ∈ p.existingConditions then
    { score := 10, basis := Basis.self_report }
  else
    { score := 80, basis := Basis.unknown }

/-- Blood glucose component scorer (calcGlucoseScore). -/
def calcGlucoseScore (p : UserProfile) : VitalScore :=
  match p.glucose with
  | some r =>
    if truthy r.a1c ∨ truthy r.fasting then
      { score := recencyPenalty r.measuredWithinMonths (medsCap r.onMeds (glucoseRawBand r))
        basis := Basis.measured }
    else glucoseFallback p
  | none => glucoseFallback p

/-- Physical activity band of the LE8 summary, on the MVPA minutes proxy. -/
def paScoreOf (mvpa : ℤ) : ℚ :=
  if 150 ≤ mvpa then 100
  else if 90 ≤ mvpa then 80
  else if 60 ≤ mvpa then 60
  else if 30 ≤ mvpa then 40
  else if 1 ≤ mvpa then 20
  else 0

/-- Nicotine exposure band of the LE8 summary. -/
def nicotineScoreOf (p : UserProfile) : ℚ :=
  if p.smoker then 0
  else if p.yearsSinceQuit.isSome ∧ 0 < p.yearsSinceQuit.getD 0 then
    (if 5 ≤ p.yearsSinceQuit.getD 0 then 100
     else if 1 ≤ p.yearsSinceQuit.getD 0 then 75
     else 50)
  else if truthy p.yearsSmoked ∧ 0 < p.yearsSmoked.getD 0 ∧ ¬ truthy p.yearsSinceQuit then 50
  else 100

/-- Sleep health band of the LE8 summary, on nightly sleep hours. -/
def sleepScoreOf (s : ℚ) : ℚ :=
  if 7 ≤ s ∧ s ≤ 9 then 100
  else if (6 ≤ s ∧ s < 7) ∨ (9 < s ∧ s < 10) then 70
  else if (5 ≤ s ∧ s < 6) ∨ (10 ≤ s ∧ s < 11) then 40
  else 0

/-- BMI band of the LE8 summary. -/
def bmiScoreOf (bmi : ℚ) : ℚ :=
  if bmi < 25 then 100
  else if bmi < 30 then 70
  else if bmi < 35 then 40
  else if bmi < 40 then 20
  else 0

/-- One LE8 component: identifier, clamped score and provenance. -/
structure Le8Component where
  id : String
  score : ℚ
  basis : Basis
deriving DecidableEq, Repr

/-- Data completeness report of the LE8 summary. -/
structure DataCompleteness where
  measuredCount : ℕ
  proxyCount : ℤ
  total : ℕ
deriving DecidableEq, Repr

/-- LE8 summary record. -/
structure Le8Summary where
  totalScore : ℤ
  components : List Le8Component
  dataCompleteness : DataCompleteness
  confidence : String
deriving DecidableEq, Repr

/-- AHA LE8 composite calculation (calculateLe8Summary). -/
def calculateLe8Summary (p : UserProfile) (bmi : ℚ)
    (activityInfo : ActivityGuidelines) (dietInfo : DietScore) : Le8Summary :=
  let lipids := calcLipidsScore p
  let glucose := calcGlucoseScore p
  let bp := calcBPScore p
  let components : List Le8Component :=
    [ { id := "diet", score := dietInfo.score, basis := Basis.proxy }
    , { id := "physical_activity"
        score := paScoreOf activityInfo.mvpaMinutesProxyPerWeek
        basis := Basis.proxy }
    , { id := "nicotine", score := nicotineScoreOf p, basis := Basis.self_report }
    , { id := "sleep", score := sleepScoreOf p.sleepHours, basis := Basis.self_report }
    , { id := "bmi", score := bmiScoreOf bmi, basis := Basis.measured }
    , { id := "blood_lipids", score := lipids.score, basis := lipids.basis }
    , { id := "blood_glucose", score := glucose.score, basis := glucose.basis }
    , { id := "blood_pressure", score := bp.score, basis := bp.basis } ]
  let totalScore : ℤ := jsRound ((components.map Le8Component.score).sum / 8)
  let measuredOrSelf : ℕ :=
    (components.filter (fun c => c.basis = Basis.measured ∨ c.basis = Basis.self_report)).length
  let measuredVitals : ℕ :=
    (components.filter (fun c => c.basis = Basis.measured)).length
  let confidence : String :=
    if 2 ≤ measuredVitals then "high"
    else if 6 ≤ measuredOrSelf then "medium"
    else "low"
  { totalScore := totalScore
    components := components
    dataCompleteness :=
      { measuredCount := measuredOrSelf, proxyCount := 8 - (measuredOrSelf : ℤ), total := 8 }
    confidence := confidence }

/-- LE8 summary of a profile, composed exactly as generateHealthProjection
wires the calculators together. -/
def le8OfProfile (p : UserProfile) : Le8Summary :=
  calculateLe8Summary p (calculateBMI p.heightCm p.weightKg)
    (calcActivityGuidelines p.dailySteps)
    (calcDietScore p.dietQuality p.fastFoodFrequency)

/-- Risk card shape of the fallback response (display fields kept because
the fallback contents are part of the contract). -/
structure RiskCard where
  title : String
  organ : String
  probability : ℚ
  probabilityLabel : String
  summary : String
  facts : List String
  sources : List String
deriving DecidableEq, Repr

/-- Simulation response shape, restricted to the fields the fallback sets. -/
structure SimulationResponse where
  riskCards : List RiskCard
  suggestedAction : String
  healthScoreCurrent : ℚ
  healthScoreFuture : ℚ
  lifeExpectancy : ℚ
  predictedConditions : List String
  organHighlights : List String
  trajectory : List (ℚ × ℚ)
  weightTrajectory : List (ℚ × ℚ)
  bmiTrajectory : List (ℚ × ℚ)
deriving DecidableEq, Repr

/-- Fixed degraded response returned by the catch branch of
generateHealthProjection. -/
def fallbackResponse : SimulationResponse :=
  { riskCards :=
      [ { title := "CONNECTION ERROR"
          organ := "network"
          probability := 0
          probabilityLabel := "Error"
          summary := "Could not retrieve health data. Please try again."
          facts := ["Check your internet connection."]
          sources := [] } ]
    suggestedAction := "Retry Simulation"
    healthScoreCurrent := 0
    healthScoreFuture := 0
    lifeExpectancy := 0
    predictedConditions := []
    organHighlights := []
    trajectory := []
    weightTrajectory := []
    bmiTrajectory := [] }

/-- Control skeleton of generateHealthProjection. The network call and the
JSON extraction and parse are external effects; they are abstracted as the
optional AI text (none when the call fails or returns no text, both of
which throw inside the try block) and a parse function (none when
extractJson or JSON.parse throws). Every throw is caught by the single
enclosing catch, which returns the fixed fallback response. -/
def generateHealthProjection (aiText : Option String)
    (parse : String → Option SimulationResponse) : SimulationResponse :=
  match aiText with
  | none => fallbackResponse
  | some t =>
    match parse t with
    | none => fallbackResponse
    | some r => r

/-- Sleep banding as worded in the specification (section 4.6, item 4):
7 to 9 gives 100; [6,7) or (9,10) gives 70; [5,6) or [10,11) gives 40;
below 5 or at least 11 gives 0. Kept separate from sleepScoreOf so the
code band can be compared against the spec band. -/
def sleepSpecBand (s : ℚ) : ℚ :=
  if 7 ≤ s ∧ s ≤ 9 then 100
  else if (6 ≤ s ∧ s < 7) ∨ (9 < s ∧ s < 10) then 70
  else if (5 ≤ s ∧ s < 6) ∨ (10 ≤ s ∧ s < 11) then 40
  else 0

/-- Concrete profile used by the spec example scenarios: age 50, male,
waist 96 cm, moderate activity, average diet, no existing conditions. -/
def profileC1 : UserProfile :=
  { age := 50, gender := Gender.Male, heightCm := 180, weightKg := 84
    waistCm := 96, hipCm := 100, dailySteps := 8000, sittingHours := 6
    existingConditions := [], sleepHours := 8
    activityLevel := ActivityLevel.Moderate, smoker := false
    cigarettesPerDay := none, yearsSmoked := none, yearsSinceQuit := none
    alcoholDrinksPerWeek := 0, maxDrinksPerOccasion := none
    dietQuality := DietQuality.Average, fastFoodFrequency := FastFoodFrequency.Weekly
    bp := none, lipids := none, glucose := none }

/-- Profile with the measured blood pressure of the spec example:
systolic 145, diastolic 85, on medication, measured 3 months ago. -/
def profileC3bp : UserProfile :=
  { profileC1 with
    bp := some
      { systolic := 145, diastolic := 85, onMeds := true, measuredWithinMonths := some 3 } }

/-- Profile with the measured lipid panel of the spec example:
LDL 200 mg/dL, on medication, measured 3 months ago. -/
def profileC3lip : UserProfile :=
  { profileC1 with
    lipids := some
      { totalChol := none, ldl := some 200, unit := MeasureUnit.mg_dL
        onMeds := true, measuredWithinMonths := some 3 } }

/-! ## Helper lemmas about the JavaScript rounding functions -/

theorem jsRound_mono {x y : ℚ} (h : x ≤ y) : jsRound x ≤ jsRound y :=
  Int.floor_le_floor (by linarith)

theorem jsRound_nonneg {x : ℚ} (h : 0 ≤ x) : 0 ≤ jsRound x :=
  Int.le_floor.mpr (by push_cast; linarith)

theorem jsRound_intCast (n : ℤ) : jsRound (n : ℚ) = n := by
  unfold jsRound
  rw [Int.floor_int_add]
  norm_num

theorem jsRound_le_of_le {x : ℚ} {n : ℤ} (h : x ≤ (n : ℚ)) : jsRound x ≤ n := by
  have h1 : jsRound x ≤ jsRound (n : ℚ) := jsRound_mono h
  rw [jsRound_intCast] at h1
  exact h1

theorem toFixed1_nonneg {x : ℚ} (h : 0 ≤ x) : 0 ≤ toFixed1 x := by
  unfold toFixed1
  have h1 : 0 ≤ jsRound (10 * x) := jsRound_nonneg (by linarith)
  have h2 : (0 : ℚ) ≤ (jsRound (10 * x) : ℚ) := by exact_mod_cast h1
  linarith

theorem ite_mul_nonneg {c : Prop} [Decidable c] {x k : ℚ} (hx : 0 ≤ x) (hk : 0 ≤ k) :
    0 ≤ if c then x * k else x := by
  split_ifs
  · exact mul_nonneg hx hk
  · exact hx

/-! ## Bounds of the individual band functions -/

theorem calcDietScore_bounds (q : DietQuality) (f : FastFoodFrequency) :
    0 ≤ (calcDietScore q f).score ∧ (calcDietScore q f).score ≤ 100 :=
  ⟨le_max_left 0 _, max_le (by norm_num) (min_le_left _ _)⟩

theorem paScoreOf_bounds (m : ℤ) : 0 ≤ paScoreOf m ∧ paScoreOf m ≤ 100 := by
  unfold paScoreOf
  split_ifs <;> norm_num

theorem nicotineScoreOf_bounds (p : UserProfile) :
    0 ≤ nicotineScoreOf p ∧ nicotineScoreOf p ≤ 100 := by
  unfold nicotineScoreOf
  split_ifs <;> norm_num

theorem sleepScoreOf_bounds (s : ℚ) : 0 ≤ sleepScoreOf s ∧ sleepScoreOf s ≤ 100 := by
  unfold sleepScoreOf
  split_ifs <;> norm_num

theorem bmiScoreOf_bounds (b : ℚ) : 0 ≤ bmiScoreOf b ∧ bmiScoreOf b ≤ 100 := by
  unfold bmiScoreOf
  split_ifs <;> norm_num

theorem bpRawBand_bounds (s d : ℚ) : 0 ≤ bpRawBand s d ∧ bpRawBand s d ≤ 100 := by
  unfold bpRawBand
  split_ifs <;> norm_num

theorem ldlBand_bounds (x : ℚ) : 0 ≤ ldlBand x ∧ ldlBand x ≤ 100 := by
  unfold ldlBand
  split_ifs <;> norm_num

theorem totalCholBand_bounds (x : ℚ) : 0 ≤ totalCholBand x ∧ totalCholBand x ≤ 100 := by
  unfold totalCholBand
  split_ifs <;> norm_num

theorem a1cBand_bounds (x : ℚ) : 0 ≤ a1cBand x ∧ a1cBand x ≤ 100 := by
  unfold a1cBand
  split_ifs <;> norm_num

theorem fastingBand_bounds (x : ℚ) : 0 ≤ fastingBand x ∧ fastingBand x ≤ 100 := by
  unfold fastingBand
  split_ifs <;> norm_num

theorem lipidsRawBand_bounds (r : LipidsRecord) :
    0 ≤ lipidsRawBand r ∧ lipidsRawBand r ≤ 100 := by
  unfold lipidsRawBand
  split_ifs
  · exact ldlBand_bounds _
  · exact totalCholBand_bounds _
  · norm_num

theorem glucoseRawBand_bounds (r : GlucoseRecord) :
    0 ≤ glucoseRawBand r ∧ glucoseRawBand r ≤ 100 := by
  unfold glucoseRawBand
  split_ifs
  · exact a1cBand_bounds _
  · exact fastingBand_bounds _
  · norm_num

theorem medsCap_bounds {b : Bool} {x : ℚ} (h0 : 0 ≤ x) (h1 : x ≤ 100) :
    0 ≤ medsCap b x ∧ medsCap b x ≤ 100 := by
  unfold medsCap
  split_ifs
  · norm_num
  · exact ⟨h0, h1⟩

theorem recencyPenalty_bounds {m : Option ℚ} {x : ℚ} (h0 : 0 ≤ x) (h1 : x ≤ 100) :
    0 ≤ recencyPenalty m x ∧ recencyPenalty m x ≤ 100 := by
  unfold recencyPenalty
  split_ifs
  · exact ⟨le_max_left 0 _, max_le (by norm_num) (by linarith)⟩
  · exact ⟨h0, h1⟩

theorem calcBPScore_bounds (p : UserProfile) :
    0 ≤ (calcBPScore p).score ∧ (calcBPScore p).score ≤ 100 := by
  have hfb : 0 ≤ (bpFallback p).score ∧ (bpFallback p).score ≤ 100 := by
    unfold bpFallback
    split_ifs <;> norm_num
  rcases hbp : p.bp with _ | bp <;> simp only [calcBPScore, hbp]
  · exact hfb
  · split_ifs with h
    · have hb := bpRawBand_bounds bp.systolic bp.diastolic
      have hc := medsCap_bounds (b := bp.onMeds) hb.1 hb.2
      exact recencyPenalty_bounds hc.1 hc.2
    · exact hfb

theorem calcLipidsScore_bounds (p : UserProfile) :
    0 ≤ (calcLipidsScore p).score ∧ (calcLipidsScore p).score ≤ 100 := by
  have hfb : 0 ≤ (lipidsFallback p).score ∧ (lipidsFallback p).score ≤ 100 := by
    unfold lipidsFallback
    split_ifs <;> norm_num
  rcases hl : p.lipids with _ | r <;> simp only [calcLipidsScore, hl]
  · exact hfb
  · split_ifs with h
    · have hb := lipidsRawBand_bounds r
      have hc := medsCap_bounds (b := r.onMeds) hb.1 hb.2
      exact recencyPenalty_bounds hc.1 hc.2
    · exact hfb

theorem calcGlucoseScore_bounds (p : UserProfile) :
    0 ≤ (calcGlucoseScore p).score ∧ (calcGlucoseScore p).score ≤ 100 := by
  have hfb : 0 ≤ (glucoseFallback p).score ∧ (glucoseFallback p).score ≤ 100 := by
    unfold glucoseFallback
    split_ifs <;> norm_num
  rcases hg : p.glucose with _ | r <;> simp only [calcGlucoseScore, hg]
  · exact hfb
  · split_ifs with h
    · have hb := glucoseRawBand_bounds r
      have hc := medsCap_bounds (b := r.onMeds) hb.1 hb.2
      exact recencyPenalty_bounds hc.1 hc.2
    · exact hfb

/-! ## Structural lemmas about the LE8 summary -/

theorem le8_components_eq (p : UserProfile) :
    (le8OfProfile p).components =
      [ ⟨"diet", (calcDietScore p.dietQuality p.fastFoodFrequency).score, Basis.proxy⟩
      , ⟨"physical_activity",
          paScoreOf (calcActivityGuidelines p.dailySteps).mvpaMinutesProxyPerWeek,
          Basis.proxy⟩
      , ⟨"nicotine", nicotineScoreOf p, Basis.self_report⟩
      , ⟨"sleep", sleepScoreOf p.sleepHours, Basis.self_report⟩
      , ⟨"bmi", bmiScoreOf (calculateBMI p.heightCm p.weightKg), Basis.measured⟩
      , ⟨"blood_lipids", (calcLipidsScore p).score, (calcLipidsScore p).basis⟩
      , ⟨"blood_glucose", (calcGlucoseScore p).score, (calcGlucoseScore p).basis⟩
      , ⟨"blood_pressure", (calcBPScore p).score, (calcBPScore p).basis⟩ ] := rfl

theorem le8_component_bounds (p : UserProfile) :
    ∀ c ∈ (le8OfProfile p).components, 0 ≤ c.score ∧ c.score ≤ 100 := by
  intro c hc
  rw [le8_components_eq] at hc
  simp only [List.mem_cons, List.not_mem_nil, or_false] at hc
  rcases hc with h | h | h | h | h | h | h | h <;> subst h
  · exact calcDietScore_bounds _ _
  · exact paScoreOf_bounds _
  · exact nicotineScoreOf_bounds p
  · exact sleepScoreOf_bounds _
  · exact bmiScoreOf_bounds _
  · exact calcLipidsScore_bounds p
  · exact calcGlucoseScore_bounds p
  · exact calcBPScore_bounds p

theorem le8_totalScore_eq (p : UserProfile) :
    (le8OfProfile p).totalScore =
      jsRound (((le8OfProfile p).components.map Le8Component.score).sum / 8) := rfl

theorem le8_total_bounds (p : UserProfile) :
    0 ≤ (le8OfProfile p).totalScore ∧ (le8OfProfile p).totalScore ≤ 100 := by
  have h1 := calcDietScore_bounds p.dietQuality p.fastFoodFrequency
  have h2 := paScoreOf_bounds (calcActivityGuidelines p.dailySteps).mvpaMinutesProxyPerWeek
  have h3 := nicotineScoreOf_bounds p
  have h4 := sleepScoreOf_bounds p.sleepHours
  have h5 := bmiScoreOf_bounds (calculateBMI p.heightCm p.weightKg)
  have h6 := calcLipidsScore_bounds p
  have h7 := calcGlucoseScore_bounds p
  have h8 := calcBPScore_bounds p
  have hts : (le8OfProfile p).totalScore =
      jsRound (((calcDietScore p.dietQuality p.fastFoodFrequency).score
        + (paScoreOf (calcActivityGuidelines p.dailySteps).mvpaMinutesProxyPerWeek
        + (nicotineScoreOf p
        + (sleepScoreOf p.sleepHours
        + (bmiScoreOf (calculateBMI p.heightCm p.weightKg)
        + ((calcLipidsScore p).score
        + ((calcGlucoseScore p).score
        + ((calcBPScore p).score + 0)))))))) / 8) := rfl
  rw [hts]
  constructor
  · exact jsRound_nonneg (by
      have : (0:ℚ) ≤ (calcDietScore p.dietQuality p.fastFoodFrequency).score
        + (paScoreOf (calcActivityGuidelines p.dailySteps).mvpaMinutesProxyPerWeek
        + (nicotineScoreOf p
        + (sleepScoreOf p.sleepHours
        + (bmiScoreOf (calculateBMI p.heightCm p.weightKg)
        + ((calcLipidsScore p).score
        + ((calcGlucoseScore p).score
        + ((calcBPScore p).score + 0))))))) := by linarith [h1.1, h2.1, h3.1, h4.1, h5.1, h6.1, h7.1, h8.1]
      linarith)
  · exact jsRound_le_of_le (by
      push_cast
      linarith [h1.2, h2.2, h3.2, h4.2, h5.2, h6.2, h7.2, h8.2])

/-! ## Bounds of the remaining top-level scores -/

theorem diabetesProb_bounds (n : ℤ) : 0 ≤ diabetesProb n ∧ diabetesProb n ≤ 99 := by
  unfold diabetesProb
  split_ifs <;> norm_num

theorem calculateCVDRiskProxy_bounds (p : UserProfile) (bmi : ℚ) :
    0 ≤ calculateCVDRiskProxy p bmi ∧ calculateCVDRiskProxy p bmi ≤ 99 := by
  unfold calculateCVDRiskProxy
  lift_lets
  extract_lets r1 r2 r3 r4 r5 r6 r7 r8
  have h1 : 0 ≤ r1 := by
    unfold r1
    split_ifs with h
    · nlinarith
    · norm_num
  have h2 : 0 ≤ r2 := by unfold r2; exact ite_mul_nonneg h1 (by norm_num)
  have h3 : 0 ≤ r3 := by unfold r3; exact ite_mul_nonneg h2 (by norm_num)
  have h4 : 0 ≤ r4 := by
    unfold r4
    split_ifs
    · exact mul_nonneg h3 (by norm_num)
    · exact mul_nonneg h3 (by norm_num)
    · exact h3
  have h5 : 0 ≤ r5 := by unfold r5; exact ite_mul_nonneg h4 (by norm_num)
  have h6 : 0 ≤ r6 := by unfold r6; exact ite_mul_nonneg h5 (by norm_num)
  have h7 : 0 ≤ r7 := by unfold r7; exact ite_mul_nonneg h6 (by norm_num)
  have h8 : 0 ≤ r8 := by unfold r8; exact ite_mul_nonneg h7 (by norm_num)
  constructor
  · exact le_min (by norm_num) (toFixed1_nonneg h8)
  · exact min_le_left _ _

theorem calculateHealthScore_bounds (p : UserProfile) (bmi : ℚ) (s : Bool) :
    10 ≤ calculateHealthScore p bmi s ∧ calculateHealthScore p bmi s ≤ 100 :=
  ⟨le_max_left 10 _, max_le (by norm_num) (min_le_left _ _)⟩

/-! ## Monotonicity helpers for the activity pipeline -/

theorem mvpaProxy_mono {s1 s2 : ℚ} (h : s1 ≤ s2) :
    (calcActivityGuidelines s1).mvpaMinutesProxyPerWeek ≤
      (calcActivityGuidelines s2).mvpaMinutesProxyPerWeek := by
  simp only [calcActivityGuidelines]
  exact jsRound_mono (by linarith)

theorem paScoreOf_mono {m n : ℤ} (h : m ≤ n) : paScoreOf m ≤ paScoreOf n := by
  unfold paScoreOf
  split_ifs
  any_goals norm_num
  all_goals omega

/-! ## Claim theorems -/

/-- C1 (corrected): for the profile age 50, BMI 26, male, waist 96 cm,
moderate activity, average diet and no hypertension, the FINDRISC score is
6 (2 age points for the 45 to 54 band, 1 BMI point, 3 waist points) and the
banded diabetes probability is 1 percent. -/
theorem c1_findrisc_example_corrected :
    calculateFindrisc profileC1 26 = 6 ∧
    diabetesProb (calculateFindrisc profileC1 26) = 1 := by
  decide

/-- C1 counterexample: the claimed values, score 7 and probability 4
percent, are false for that profile: age 50 falls in the 45 to 54 band and
scores 2 points, not 3. -/
theorem c1_findrisc_example_counterexample :
    ¬ (calculateFindrisc profileC1 26 = 7 ∧
        diabetesProb (calculateFindrisc profileC1 26) = 4) := by
  decide

/-- C3: the medication cap never raises a vital component score: with
onMeds true the capped score is exactly min of the raw band and 80, and for
any onMeds flag the cap can only lower the score. In particular the
measured blood pressure 145 over 85 on medication measured 3 months ago
scores 20, and a measured LDL of 200 mg/dL on medication scores 10. -/
theorem c3_meds_cap_never_raises :
    (∀ s : ℚ, medsCap true s = min s 80) ∧
    (∀ (b : Bool) (s : ℚ), medsCap b s ≤ s) ∧
    calcBPScore profileC3bp = { score := 20, basis := Basis.measured } ∧
    calcLipidsScore profileC3lip = { score := 10, basis := Basis.measured } := by
  refine ⟨?_, ?_, by decide, by decide⟩
  · intro s
    unfold medsCap
    split_ifs with h
    · exact (min_eq_right h.2.le).symm
    · have hs : s ≤ 80 := by
        by_contra hc
        exact h ⟨rfl, lt_of_not_le hc⟩
      exact (min_eq_left hs).symm
  · intro b s
    unfold medsCap
    split_ifs with h
    · exact h.2.le
    · exact le_refl s

/-- C5: the LE8 sleep component implements exactly the asymmetric banding
stated by the spec, and in particular sleeping 9.5 hours scores 70 while
sleeping 7.0 hours scores 100. -/
theorem c5_sleep_banding (s : ℚ) :
    sleepScoreOf s = sleepSpecBand s ∧
    sleepScoreOf (19/2) = 70 ∧
    sleepScoreOf 7 = 100 :=
  ⟨rfl, by norm_num [sleepScoreOf], by norm_num [sleepScoreOf]⟩

/-- C9: the FINDRISC score is bounded by 16 on every input, so the banding
branch for scores above 20 is unreachable and the probability never
takes the value 50. -/
theorem c9_findrisc_max_sixteen (p : UserProfile) (bmi : ℚ) :
    calculateFindrisc p bmi ≤ 16 ∧
    diabetesProb (calculateFindrisc p bmi) ≠ 50 := by
  have hle : calculateFindrisc p bmi ≤ 16 := by
    unfold calculateFindrisc
    lift_lets
    extract_lets a b c d e f
    have ha : a ≤ 4 := by unfold a; split_ifs <;> norm_num
    have hb : b ≤ 3 := by unfold b; split_ifs <;> norm_num
    have hc : c ≤ 4 := by unfold c; split_ifs <;> norm_num
    have hd : d ≤ 2 := by unfold d; split_ifs <;> norm_num
    have he : e ≤ 1 := by unfold e; split_ifs <;> norm_num
    have hf : f ≤ 2 := by unfold f; split_ifs <;> norm_num
    omega
  refine ⟨hle, ?_⟩
  unfold diabetesProb
  split_ifs
  any_goals norm_num
  all_goals omega

/-- C10: a profile with gender Other is scored identically to the same
profile with gender Female by the FINDRISC score, the alcohol risk
classifier and the CVD risk proxy, because every sex-specific branch tests
only for Male. -/
theorem c10_female_other_equal (p : UserProfile) (bmi : ℚ) :
    calculateFindrisc { p with gender := Gender.Female } bmi
      = calculateFindrisc { p with gender := Gender.Other } bmi ∧
    calcAlcoholRisk p.alcoholDrinksPerWeek Gender.Female p.maxDrinksPerOccasion
      = calcAlcoholRisk p.alcoholDrinksPerWeek Gender.Other p.maxDrinksPerOccasion ∧
    calculateCVDRiskProxy { p with gender := Gender.Female } bmi
      = calculateCVDRiskProxy { p with gender := Gender.Other } bmi := by
  refine ⟨?_, ?_, ?_⟩
  · simp [calculateFindrisc]
  · cases p.maxDrinksPerOccasion <;> simp [calcAlcoholRisk]
  · simp [calculateCVDRiskProxy]

/-- C2: for every profile, the LE8 summary has exactly 8 components, its
total score is the rounded unweighted arithmetic mean of their scores, and
every component score lies in the closed interval from 0 to 100. -/
theorem c2_le8_composite_mean_and_bounds (p : UserProfile) :
    (le8OfProfile p).components.length = 8 ∧
    (le8OfProfile p).totalScore =
      jsRound (((le8OfProfile p).components.map Le8Component.score).sum / 8) ∧
    ∀ c ∈ (le8OfProfile p).components, 0 ≤ c.score ∧ c.score ≤ 100 :=
  ⟨by rw [le8_components_eq]; rfl, le8_totalScore_eq p, le8_component_bounds p⟩

/-- C2 witness: the component bound instantiated at the example profile and
its sleep component, whose score evaluates to 100. -/
theorem c2_le8_composite_mean_and_bounds_witness :
    0 ≤ ((⟨"sleep", 100, Basis.self_report⟩ : Le8Component)).score ∧
    ((⟨"sleep", 100, Basis.self_report⟩ : Le8Component)).score ≤ 100 :=
  (c2_le8_composite_mean_and_bounds profileC1).2.2 ⟨"sleep", 100, Basis.self_report⟩
    (by rw [le8_components_eq]; norm_num [profileC1, sleepScoreOf])

/-- C4: every bounded score stays in its documented interval for every
profile and BMI argument: the banded diabetes probability and the CVD risk
proxy lie in [0,99], every LE8 component score and the LE8 total lie in
[0,100], and the legacy bio-vitality score lies in [10,100]. -/
theorem c4_clamping_invariant (p : UserProfile) (bmi : ℚ) :
    (0 ≤ diabetesProb (calculateFindrisc p bmi) ∧
      diabetesProb (calculateFindrisc p bmi) ≤ 99) ∧
    (0 ≤ calculateCVDRiskProxy p bmi ∧ calculateCVDRiskProxy p bmi ≤ 99) ∧
    (∀ c ∈ (le8OfProfile p).components, 0 ≤ c.score ∧ c.score ≤ 100) ∧
    (0 ≤ (le8OfProfile p).totalScore ∧ (le8OfProfile p).totalScore ≤ 100) ∧
    (10 ≤ calculateHealthScore p bmi p.smoker ∧
      calculateHealthScore p bmi p.smoker ≤ 100) :=
  ⟨diabetesProb_bounds _, calculateCVDRiskProxy_bounds p bmi, le8_component_bounds p,
    le8_total_bounds p, calculateHealthScore_bounds p bmi p.smoker⟩

/-- C4 witness: the LE8 component bound instantiated at the measured blood
pressure profile and its blood pressure component, whose score evaluates
to 20. -/
theorem c4_clamping_invariant_witness :
    0 ≤ ((⟨"blood_pressure", 20, Basis.measured⟩ : Le8Component)).score ∧
    ((⟨"blood_pressure", 20, Basis.measured⟩ : Le8Component)).score ≤ 100 :=
  (c4_clamping_invariant profileC3bp 26).2.2.1 ⟨"blood_pressure", 20, Basis.measured⟩
    (by
      rw [le8_components_eq]
      norm_num [profileC3bp, profileC1, calcBPScore, bpRawBand, medsCap, recencyPenalty])

/-- C6: whenever a maximum drinks per occasion is provided and reaches the
sex-specific binge threshold (5 for male, 4 otherwise), the binge flag is
set and the returned risk level is high regardless of the weekly total; in
particular 6 drinks per occasion, 2 drinks per week and gender Female
yield the binge flag and risk level high. -/
theorem c6_binge_escalates_high (drinks : ℚ) (sex : Gender) (m : ℚ)
    (hm : (if sex = Gender.Male then (5 : ℚ) else 4) ≤ m) :
    ((calcAlcoholRisk drinks sex (some m)).bingeFlag = true ∧
      (calcAlcoholRisk drinks sex (some m)).riskLevel = "high") ∧
    ((calcAlcoholRisk 2 Gender.Female (some 6)).bingeFlag = true ∧
      (calcAlcoholRisk 2 Gender.Female (some 6)).riskLevel = "high") := by
  refine ⟨?_, by decide⟩
  have hd : decide ((if sex = Gender.Male then (5 : ℚ) else 4) ≤ m) = true :=
    decide_eq_true hm
  constructor
  · simp only [calcAlcoholRisk]
    exact hd
  · simp only [calcAlcoholRisk, hd]
    split_ifs <;> simp_all

/-- C6 witness: the general escalation applied at the concrete female
profile with 6 drinks per occasion. -/
theorem c6_binge_escalates_high_witness :
    (if Gender.Female = Gender.Male then (5 : ℚ) else 4) ≤ 6 ∧
    (calcAlcoholRisk 2 Gender.Female (some 6)).riskLevel = "high" :=
  ⟨by decide, ((c6_binge_escalates_high 2 Gender.Female 6 (by decide)).1).2⟩

/-- C7: whenever the AI call fails (no text) or its response cannot be
parsed, generateHealthProjection returns the fixed degraded response,
whose risk card list is the single CONNECTION ERROR card, whose scores and
life expectancy are 0 and whose trajectory arrays are empty. -/
theorem c7_fail_soft_fallback (aiText : Option String)
    (parse : String → Option SimulationResponse)
    (h : aiText = none ∨ ∃ t, aiText = some t ∧ parse t = none) :
    generateHealthProjection aiText parse = fallbackResponse ∧
    fallbackResponse.riskCards.map RiskCard.title = ["CONNECTION ERROR"] ∧
    fallbackResponse.healthScoreCurrent = 0 ∧
    fallbackResponse.healthScoreFuture = 0 ∧
    fallbackResponse.lifeExpectancy = 0 ∧
    fallbackResponse.trajectory = [] ∧
    fallbackResponse.weightTrajectory = [] ∧
    fallbackResponse.bmiTrajectory = [] := by
  refine ⟨?_, rfl, rfl, rfl, rfl, rfl, rfl, rfl⟩
  rcases h with h | ⟨t, ht, hp⟩
  · rw [h]
    rfl
  · rw [ht]
    simp only [generateHealthProjection, hp]

/-- C7 witness: the fallback equation applied at a failed call. -/
theorem c7_fail_soft_fallback_witness :
    generateHealthProjection none (fun _ => none) = fallbackResponse :=
  (c7_fail_soft_fallback none (fun _ => none) (Or.inl rfl)).1

/-- C8: raising daily steps between 3000 and 12000 never lowers the
activity pipeline: the MVPA minutes proxy, the guideline flags and the LE8
physical activity band are all monotone in the step count. -/
theorem c8_steps_monotone (s1 s2 : ℚ) (hlo : 3000 ≤ s1) (h12 : s1 ≤ s2)
    (hhi : s2 ≤ 12000) :
    (calcActivityGuidelines s1).mvpaMinutesProxyPerWeek ≤
      (calcActivityGuidelines s2).mvpaMinutesProxyPerWeek ∧
    ((calcActivityGuidelines s1).meetsGuidelineBySteps = true →
      (calcActivityGuidelines s2).meetsGuidelineBySteps = true) ∧
    ((calcActivityGuidelines s1).meetsGuidelineByProxyMinutes = true →
      (calcActivityGuidelines s2).meetsGuidelineByProxyMinutes = true) ∧
    ((calcActivityGuidelines s1).overallMeetsMinimumGuideline = true →
      (calcActivityGuidelines s2).overallMeetsMinimumGuideline = true) ∧
    paScoreOf (calcActivityGuidelines s1).mvpaMinutesProxyPerWeek ≤
      paScoreOf (calcActivityGuidelines s2).mvpaMinutesProxyPerWeek := by
  have hm := mvpaProxy_mono h12
  refine ⟨hm, ?_, ?_, ?_, paScoreOf_mono hm⟩
  · simp only [calcActivityGuidelines, decide_eq_true_eq]
    intro hx
    linarith
  · simp only [calcActivityGuidelines, decide_eq_true_eq]
    simp only [calcActivityGuidelines] at hm
    intro hx
    omega
  · simp only [calcActivityGuidelines, Bool.or_eq_true, decide_eq_true_eq]
    simp only [calcActivityGuidelines] at hm
    rintro (hx | hx)
    · left; linarith
    · right; omega

/-- C8 witness: the monotone bound applied at the endpoints 3000 and
12000. -/
theorem c8_steps_monotone_witness :
    (3000 : ℚ) ≤ 3000 ∧ (3000 : ℚ) ≤ 12000 ∧ (12000 : ℚ) ≤ 12000 ∧
    (calcActivityGuidelines 3000).mvpaMinutesProxyPerWeek ≤
      (calcActivityGuidelines 12000).mvpaMinutesProxyPerWeek :=
  ⟨by norm_num, by norm_num, by norm_num,
    (c8_steps_monotone 3000 12000 (by norm_num) (by norm_num) (by norm_num)).1⟩

end SYFH
